import Mathlib

/-!
# Verification of the event-approval / venue-booking backend

A shallow embedding of the MERN backend's core logic (routes/event.js,
routes/venueBooking.js, models/Organization.js) together with theorems
settling the frozen claims about the specification.

Conventions of the embedding:
* Mongo ObjectIds are modelled as `Nat`; JS `Date` values as `Int`
  timestamps (JS compares dates numerically).
* A record store is a `List` of records; `findById` is `List.find?` on
  the id field.
* A request handler becomes a function returning `Option`/`Except`:
  `none`/`.error` means the request was rejected (4xx/5xx) and no state
  was committed; `some`/`.ok` carries the state the handler persists.
-/

namespace Mern

/-- Event status strings of the Event model: 'pending', 'approved',
'rejected', 'needs_modification', 'cancelled'. -/
inductive EStatus
  | pending
  | approved
  | rejected
  | needs_modification
  | cancelled
deriving DecidableEq, Repr

/-- Venue-booking status strings: 'temporary', 'confirmed', 'cancelled'. -/
inductive BStatus
  | temporary
  | confirmed
  | cancelled
deriving DecidableEq, Repr

/-- Per-chain-entry status strings (the review decisions plus 'pending'). -/
inductive CStatus
  | pending
  | approved
  | rejected
  | needs_modification
deriving DecidableEq, Repr

/-- The review decisions accepted by PUT /:eventId/review after its
`['approved', 'rejected', 'needs_modification'].includes(status)` check. -/
inductive Decision
  | approved
  | rejected
  | needs_modification
deriving DecidableEq, Repr

/-- The chain-entry status written for a decision
(`event.approvalChain[i].status = status`). -/
def Decision.toC : Decision → CStatus
  | .approved => .approved
  | .rejected => .rejected
  | .needs_modification => .needs_modification

/-- An organization record (models/Organization.js): `_id`, `name`,
`level` (0 = root, 1 = College, 2+ children), `parentOrganization`. -/
structure Organization where
  id : Nat
  name : String
  level : Int
  parentOrganization : Option Nat
deriving DecidableEq, Repr

/-- One entry of an event's `approvalChain`. -/
structure ChainEntry where
  organization : Nat
  status : CStatus
  comments : String
deriving DecidableEq, Repr

/-- One entry of an event's `modificationHistory`. -/
structure ModEntry where
  requestedBy : Nat
  comments : String
deriving DecidableEq, Repr

/-- An event record (the fields the core logic reads and writes). -/
structure Event where
  id : Nat
  createdBy : Nat
  venue : Nat
  startT : Int
  endT : Int
  status : EStatus
  approvalChain : List ChainEntry
  modificationHistory : List ModEntry
deriving DecidableEq, Repr

/-- A venue-booking record. -/
structure Booking where
  venue : Nat
  event : Nat
  startT : Int
  endT : Int
  status : BStatus
deriving DecidableEq, Repr

/-- `Organization.findById` over a store of organization records. -/
def findOrg (orgs : List Organization) (i : Nat) : Option Organization :=
  orgs.find? (fun o => o.id = i)

/-! ## Venue Conflict Detector -/

/-- The three-case `$or` of the `conflictingBookings` query
(routes/event.js lines 58-74 and routes/venueBooking.js lines 195-211),
applied to an existing booking `[bs, be)` against a requested interval
`[s, e)`: the existing booking's `startDateTime`/`endDateTime` are the
queried fields, `s`/`e` the new interval. -/
def threeCaseConflict (bs be s e : Int) : Bool :=
  (decide (bs ≤ s) && decide (be > s)) ||
  (decide (bs < e) && decide (be ≥ e)) ||
  (decide (bs ≥ s) && decide (be ≤ e))

/-- The general half-open overlap test the spec states:
`[bs,be)` and `[s,e)` overlap iff `bs < e AND s < be`. -/
def halfOpenOverlap (bs be s e : Int) : Bool :=
  decide (bs < e) && decide (s < be)

/-- A booking is active iff its status is in `['temporary', 'confirmed']`
(the `$in` filter of every conflict query). -/
def isActive (b : Booking) : Bool :=
  decide (b.status = BStatus.temporary) || decide (b.status = BStatus.confirmed)

/-- The `conflictingBookings` query of POST / (routes/event.js 55-75):
bookings on the venue, active, matching the three-case overlap. -/
def conflictingBookings (store : List Booking) (v : Nat) (s e : Int) :
    List Booking :=
  store.filter (fun b =>
    decide (b.venue = v) && isActive b && threeCaseConflict b.startT b.endT s e)

/-- The check-availability variant with `excludeEventId`
(routes/venueBooking.js 192-219): same query plus `event: { $ne: ex }`. -/
def conflictingBookingsEx (store : List Booking) (v : Nat) (s e : Int)
    (ex : Option Nat) : List Booking :=
  store.filter (fun b =>
    decide (b.venue = v) && isActive b && threeCaseConflict b.startT b.endT s e
      && (match ex with
          | none => true
          | some x => decide (b.event ≠ x)))

/-! ## Organization Hierarchy Resolver -/

/-- The approval-chain `while` loop of POST / (routes/event.js 106-122):
follow `parentOrganization` upward, appending each found ancestor as a
pending entry, stopping at a level-1 ancestor or a missing parent.
`fuel` bounds the walk (the JS loop relies on the hierarchy being
acyclic; any fuel at least the hierarchy depth is enough). -/
def buildChainLoop (orgs : List Organization) :
    Nat → Organization → List ChainEntry → List ChainEntry
  | 0, _, acc => acc
  | fuel + 1, cur, acc =>
    match cur.parentOrganization with
    | none => acc
    | some pid =>
      match findOrg orgs pid with
      | none => acc
      | some p =>
        let acc' := acc ++ [⟨p.id, CStatus.pending, ""⟩]
        if p.level = 1 then acc' else buildChainLoop orgs fuel p acc'

/-- The full chain construction of POST / (routes/event.js 102-134):
the parent walk, then the fallback that fans out to all level-1
organizations when the walk produced nothing and the creator is not
itself level 1. -/
def buildApprovalChain (orgs : List Organization) (creator : Organization)
    (fuel : Nat) : List ChainEntry :=
  let chain := buildChainLoop orgs fuel creator []
  if chain = [] ∧ creator.level ≠ 1 then
    (orgs.filter (fun o => o.level = 1)).map
      (fun o => ⟨o.id, CStatus.pending, ""⟩)
  else chain

/-! ## Event Approval State Machine -/

/-- Record a review decision at chain position `idx`
(`event.approvalChain[idx].status = status; ... .comments = comments`,
routes/event.js 437-438 / 396-397). -/
def recordDecision : List ChainEntry → Nat → CStatus → String → List ChainEntry
  | [], _, _, _ => []
  | a :: rest, 0, st, c => ⟨a.organization, st, c⟩ :: rest
  | a :: rest, n + 1, st, c => a :: recordDecision rest n st c

/-- The cascade reset that the needs_modification branch *intends*
(the body of the `forEach` at routes/event.js 462-476): every entry other
than the reviewer's whose organization exists and has level greater than
the reviewing organization's is reset to pending with an annotating
comment.  In the source these per-entry mutations run inside un-awaited
`Organization.findById(...).then(...)` callbacks, so they are *not* part
of the document `event.save()` persists; `reviewEvent` below therefore
omits them, and this function states what the spec asks for. -/
def cascadeReset (orgs : List Organization) (reviewingOrg : Organization)
    (approvalIndex : Nat) (chain : List ChainEntry) : List ChainEntry :=
  chain.mapIdx (fun idx a =>
    if idx ≠ approvalIndex then
      match findOrg orgs a.organization with
      | some org =>
        if org.level > reviewingOrg.level then
          ⟨a.organization, CStatus.pending,
            "Reset due to modification request from " ++ reviewingOrg.name⟩
        else a
      | none => a
    else a)

/-- PUT /:eventId/review (routes/event.js 348-518), as the state it
persists: given the organization store, the authenticated reviewer, the
event, its booking's status, a decision and comments, return `none` when
the request is rejected with no state change (403 when the reviewer holds
no chain slot and has level > 1; 500 when the in-chain approved branch
dereferences a missing reviewing organization) and otherwise the saved
event together with the booking status after the call.

The needs_modification cascade resets are *not* applied: the source
issues them in fire-and-forget promise callbacks after registering them
in a `forEach`, and `event.save()` runs before any callback, so the
persisted document carries only the synchronous mutations. -/
def reviewEvent (orgs : List Organization) (reviewer : Organization)
    (e : Event) (bk : BStatus) (decision : Decision) (comments : String) :
    Option (Event × BStatus) :=
  match e.approvalChain.findIdx? (fun a => a.organization = reviewer.id) with
  | none =>
    if reviewer.level ≤ 1 then
      -- authority override: append an ad-hoc chain entry and record into it
      let chain := e.approvalChain ++ [⟨reviewer.id, decision.toC, comments⟩]
      match decision with
      | .rejected =>
        some ({ e with approvalChain := chain, status := .rejected },
          BStatus.cancelled)
      | .needs_modification =>
        some ({ e with
          approvalChain := chain
          status := .needs_modification
          modificationHistory :=
            e.modificationHistory ++ [⟨reviewer.id, comments⟩] }, bk)
      | .approved =>
        if reviewer.level = 1 then
          some ({ e with approvalChain := chain, status := .approved },
            BStatus.confirmed)
        else
          some ({ e with approvalChain := chain }, bk)
    else none
  | some approvalIndex =>
    let chain := recordDecision e.approvalChain approvalIndex decision.toC
      comments
    match decision with
    | .rejected =>
      some ({ e with approvalChain := chain, status := .rejected },
        BStatus.cancelled)
    | .needs_modification =>
      some ({ e with
        approvalChain := chain
        status := .needs_modification
        modificationHistory :=
          e.modificationHistory ++ [⟨reviewer.id, comments⟩] }, bk)
    | .approved =>
      match findOrg orgs reviewer.id with
      | none => none
      | some reviewingOrg =>
        if reviewingOrg.level = 1 then
          some ({ e with approvalChain := chain, status := .approved },
            BStatus.confirmed)
        else
          let allApproved := (chain.take (approvalIndex + 1)).all
            (fun a => a.status = CStatus.approved)
          if allApproved then
            some ({ e with approvalChain := chain }, bk)
          else
            some ({ e with approvalChain := chain, status := .pending }, bk)

/-- PUT /:id/cancel (routes/event.js 521-547): only the creator may
cancel; the event becomes cancelled and the booking is cancelled. -/
def cancelEvent (requester : Nat) (e : Event) :
    Option (Event × BStatus) :=
  if e.createdBy = requester then
    some ({ e with status := .cancelled }, BStatus.cancelled)
  else none

/-! ## Booking Lifecycle Manager -/

/-- PUT /:id of routes/venueBooking.js (107-150): a venue manager sets a
booking's status; when the new status is cancelled the event is set to
cancelled, when confirmed the event is set to approved, and when
temporary the event is left unchanged.  Returns the new
(booking status, event status) pair, or `none` on the 403. -/
def updateBookingStatus (isVenueManager : Bool) (newStatus : BStatus)
    (eventStatus : EStatus) : Option (BStatus × EStatus) :=
  if isVenueManager then
    some (newStatus,
      match newStatus with
      | .cancelled => EStatus.cancelled
      | .confirmed => EStatus.approved
      | .temporary => eventStatus)
  else none

/-- The spec's VenueBooking invariant: the booking status reflects the
parent event's status (temporary ↔ pending/needs_modification,
confirmed ↔ approved, cancelled ↔ rejected/cancelled). -/
def bookingReflects (es : EStatus) (bs : BStatus) : Prop :=
  (bs = BStatus.temporary ↔
    (es = EStatus.pending ∨ es = EStatus.needs_modification)) ∧
  (bs = BStatus.confirmed ↔ es = EStatus.approved) ∧
  (bs = BStatus.cancelled ↔
    (es = EStatus.rejected ∨ es = EStatus.cancelled))

instance (es : EStatus) (bs : BStatus) : Decidable (bookingReflects es bs) := by
  unfold bookingReflects; infer_instance

/-! ## Event creation and update -/

/-- The request body of POST / as the handler destructures it.  Fields
are `Option`s standing for possibly-absent JS values; the string-valued
fields (`name`, `description`) are falsy when absent or empty, the
date/venue references when absent, and the numeric fields (`budget`,
`expectedParticipants`) when absent or zero — JS `!x` truthiness. -/
structure CreateReq where
  name : Option String
  startDateTime : Option Int
  endDateTime : Option Int
  venue : Option Nat
  budget : Option Int
  description : Option String
  expectedParticipants : Option Int
deriving DecidableEq, Repr

/-- JS falsiness of an optional string: absent or `""`. -/
def strFalsy : Option String → Bool
  | none => true
  | some s => decide (s = "")

/-- JS falsiness of an optional number: absent or `0`. -/
def numFalsy : Option Int → Bool
  | none => true
  | some n => decide (n = 0)

/-- JS falsiness of an optional reference: absent. -/
def refFalsy : Option Nat → Bool
  | none => true
  | some _ => false

/-- JS falsiness of an optional date string (modelled as a timestamp):
absent; a present date string is a non-empty string and so truthy. -/
def dateFalsy : Option Int → Bool
  | none => true
  | some _ => false

/-- The required-field validation of POST / (routes/event.js 24-28):
`!name || !startDateTime || !endDateTime || !venue || !budget ||
!description || !expectedParticipants`. -/
def missingFields (r : CreateReq) : Bool :=
  strFalsy r.name || dateFalsy r.startDateTime || dateFalsy r.endDateTime ||
  refFalsy r.venue || numFalsy r.budget || strFalsy r.description ||
  numFalsy r.expectedParticipants

/-- The errors POST / can reject with. -/
inductive CreateErr
  | missingFields
  | venueNotFound
  | invalidInterval
  | venueConflict (conflicts : List Booking)
deriving DecidableEq, Repr

/-- POST / (routes/event.js 10-164): field validation, venue lookup,
interval validation, conflict check, approval-chain construction, then
the event (pending) and its temporary booking are persisted. -/
def createEvent (orgs : List Organization) (creator : Organization)
    (venues : List Nat) (bookings : List Booking) (r : CreateReq)
    (eventId : Nat) (fuel : Nat) : Except CreateErr (Event × Booking) :=
  if missingFields r then .error .missingFields
  else
    let v := r.venue.getD 0
    if v ∈ venues then
      let s := r.startDateTime.getD 0
      let en := r.endDateTime.getD 0
      if en ≤ s then .error .invalidInterval
      else
        let conflicts := conflictingBookings bookings v s en
        if conflicts = [] then
          .ok ({ id := eventId, createdBy := creator.id, venue := v,
                 startT := s, endT := en, status := .pending,
                 approvalChain := buildApprovalChain orgs creator fuel,
                 modificationHistory := [] },
               { venue := v, event := eventId, startT := s, endT := en,
                 status := BStatus.temporary })
        else .error (.venueConflict conflicts)
    else .error .venueNotFound

/-- The request body of PUT /:id (routes/event.js 582-592). -/
structure UpdateReq where
  name : Option String
  startDateTime : Option Int
  endDateTime : Option Int
  venue : Option Nat
  budget : Option Int
  description : Option String
  expectedParticipants : Option Int
  resetStatus : Bool
deriving DecidableEq, Repr

/-- The field updates of PUT /:id (routes/event.js 595-602): each field
is written only when the supplied value is truthy.  Only the fields the
embedding tracks are shown; `name`/`budget`/… updates do not affect the
claims and are dropped from `Event`, matching the fields it carries. -/
def applyPatch (e : Event) (r : UpdateReq) : Event :=
  let e := match r.startDateTime with
    | some s => { e with startT := s }
    | none => e
  let e := match r.endDateTime with
    | some en => { e with endT := en }
    | none => e
  match r.venue with
  | some v => { e with venue := v }
  | none => e

/-- PUT /:id (routes/event.js 568-647): only the creator may update;
fields are patched; when `resetStatus` is truthy and the event is in
needs_modification, the status returns to pending, a modification-history
entry is appended and the booking is retargeted to the patched
venue/interval with status temporary.  No conflict check is performed
anywhere in the handler. -/
def updateEvent (requester : Nat) (e : Event) (bk : Booking)
    (r : UpdateReq) : Option (Event × Booking) :=
  if e.createdBy = requester then
    let e' := applyPatch e r
    if r.resetStatus ∧ e'.status = EStatus.needs_modification then
      some ({ e' with
              status := .pending
              modificationHistory := e'.modificationHistory ++
                [⟨requester, "Event modified as requested"⟩] },
            { venue := e'.venue, event := bk.event, startT := e'.startT,
              endT := e'.endT, status := BStatus.temporary })
    else some (e', bk)
  else none

end Mern

namespace Mern

/-! ## Theorems: conflict detection -/

/-- C2: on validity-checked intervals the three-case `$or` coincides with
the general half-open overlap test, and touching endpoints never
conflict. -/
theorem threeCase_iff_halfOpen (bs be s e : Int)
    (hb : bs < be) (hn : s < e) :
    (threeCaseConflict bs be s e = halfOpenOverlap bs be s e) ∧
    (be = s ∨ e = bs → threeCaseConflict bs be s e = false) := by
  constructor
  · rw [Bool.eq_iff_iff]
    simp only [threeCaseConflict, halfOpenOverlap,
      Bool.or_eq_true, Bool.and_eq_true, decide_eq_true_eq]
    omega
  · intro h
    simp only [threeCaseConflict, Bool.or_eq_false_iff,
      Bool.and_eq_false_iff, decide_eq_false_iff_not, not_le, not_lt]
    omega

/-- Witness for `threeCase_iff_halfOpen` at a concrete input. -/
theorem threeCase_iff_halfOpen_witness :
    ((0 : Int) < 2 ∧ (2 : Int) < 5) ∧
    ((threeCaseConflict 0 2 2 5 = halfOpenOverlap 0 2 2 5) ∧
      ((2 : Int) = 2 ∨ (5 : Int) = 0 →
        threeCaseConflict 0 2 2 5 = false)) :=
  ⟨by decide, threeCase_iff_halfOpen 0 2 2 5 (by decide) (by decide)⟩

/-- C9: the conflict query only ever returns active bookings, so a
cancelled booking (in particular one whose interval exactly matches the
requested one on the same venue) is never reported as a conflict. -/
theorem conflicts_only_active (store : List Booking) (v : Nat) (s e : Int)
    (b : Booking) :
    (b ∈ conflictingBookings store v s e →
      b.status = BStatus.temporary ∨ b.status = BStatus.confirmed) ∧
    (b.status = BStatus.cancelled → b ∉ conflictingBookings store v s e) := by
  constructor
  · intro hmem
    have := List.of_mem_filter hmem
    simp only [Bool.and_eq_true, isActive, Bool.or_eq_true,
      decide_eq_true_eq] at this
    exact this.1.2
  · intro hc hmem
    have := List.of_mem_filter hmem
    simp only [Bool.and_eq_true, isActive, Bool.or_eq_true,
      decide_eq_true_eq] at this
    rcases this.1.2 with h | h <;> rw [hc] at h <;> cases h

/-! ## Theorems: approval-chain construction -/

/-- C7: for a creator whose ancestor walk is a level-2 parent, a level-1
grandparent and a level-0 great-grandparent, the chain built at event
creation is exactly [level-2 org, level-1 org], both pending: the creator
is excluded and the walk stops once the level-1 ancestor is appended. -/
theorem buildApprovalChain_level3_creator (orgs : List Organization)
    (creator p2 p1 p0 : Organization) (n : Nat)
    (hc : creator.level = 3)
    (hcp : creator.parentOrganization = some p2.id)
    (hf2 : findOrg orgs p2.id = some p2) (h2 : p2.level = 2)
    (h2p : p2.parentOrganization = some p1.id)
    (hf1 : findOrg orgs p1.id = some p1) (h1 : p1.level = 1)
    (h1p : p1.parentOrganization = some p0.id)
    (hf0 : findOrg orgs p0.id = some p0) (h0 : p0.level = 0) :
    buildApprovalChain orgs creator (n + 2) =
      [⟨p2.id, CStatus.pending, ""⟩, ⟨p1.id, CStatus.pending, ""⟩] := by
  have h21 : ¬ (p2.level = 1) := by rw [h2]; decide
  have hloop : buildChainLoop orgs (n + 2) creator [] =
      [⟨p2.id, CStatus.pending, ""⟩, ⟨p1.id, CStatus.pending, ""⟩] := by
    rw [buildChainLoop, hcp]
    simp only [hf2, if_neg h21]
    rw [buildChainLoop, h2p]
    simp only [hf1, if_pos h1, List.nil_append, List.cons_append]
  unfold buildApprovalChain
  rw [hloop]
  simp

/-- Witness for `buildApprovalChain_level3_creator` on a concrete
four-organization hierarchy. -/
theorem buildApprovalChain_level3_creator_witness :
    ((Organization.mk 3 "Club" 3 (some 2)).level = 3 ∧
      (Organization.mk 3 "Club" 3 (some 2)).parentOrganization = some 2 ∧
      findOrg [⟨0, "Admin", 0, none⟩, ⟨1, "College", 1, some 0⟩,
        ⟨2, "Dept", 2, some 1⟩, ⟨3, "Club", 3, some 2⟩] 2 =
        some ⟨2, "Dept", 2, some 1⟩) ∧
    buildApprovalChain [⟨0, "Admin", 0, none⟩, ⟨1, "College", 1, some 0⟩,
        ⟨2, "Dept", 2, some 1⟩, ⟨3, "Club", 3, some 2⟩]
      (Organization.mk 3 "Club" 3 (some 2)) (8 + 2) =
      [⟨2, CStatus.pending, ""⟩, ⟨1, CStatus.pending, ""⟩] :=
  ⟨⟨rfl, rfl, by decide⟩,
    buildApprovalChain_level3_creator _
      (Organization.mk 3 "Club" 3 (some 2)) ⟨2, "Dept", 2, some 1⟩
      ⟨1, "College", 1, some 0⟩ ⟨0, "Admin", 0, none⟩ 8
      rfl rfl (by decide) rfl rfl (by decide) rfl rfl (by decide) rfl⟩

/-! ## Theorems: review transitions -/

/-- Shared helper: a level-1 reviewer whose record in the organization
store agrees with the authenticated organization always lands the event
in approved with a confirmed booking when deciding approved, whether or
not it holds a chain slot. -/
theorem reviewEvent_approved_level1 (orgs : List Organization)
    (reviewer : Organization) (e : Event) (bk : BStatus) (c : String)
    (hlvl : reviewer.level = 1)
    (horg : findOrg orgs reviewer.id = some reviewer) :
    ∃ e', reviewEvent orgs reviewer e bk .approved c =
        some (e', BStatus.confirmed) ∧ e'.status = EStatus.approved := by
  unfold reviewEvent
  cases hidx : e.approvalChain.findIdx?
      (fun a => a.organization = reviewer.id) with
  | none =>
    have hle : reviewer.level ≤ 1 := by rw [hlvl]
    simp only [if_pos hle, if_pos hlvl]
    exact ⟨_, rfl, rfl⟩
  | some idx =>
    rw [horg]
    simp only [if_pos hlvl]
    exact ⟨_, rfl, rfl⟩

/-- C6: for every reviewEvent call with decision approved by an
organization of level exactly 1 — chain slot or authority override —
the event becomes approved and its booking confirmed, regardless of the
other chain entries. -/
theorem review_approved_level1_confirms (orgs : List Organization)
    (reviewer : Organization) (e : Event) (bk : BStatus) (c : String)
    (hlvl : reviewer.level = 1)
    (horg : findOrg orgs reviewer.id = some reviewer) :
    ∃ e', reviewEvent orgs reviewer e bk .approved c =
        some (e', BStatus.confirmed) ∧ e'.status = EStatus.approved :=
  reviewEvent_approved_level1 orgs reviewer e bk c hlvl horg

/-- Witness for `review_approved_level1_confirms`: a level-1 chain holder
approves while the other entry is still pending. -/
theorem review_approved_level1_confirms_witness :
    ((Organization.mk 1 "College" 1 none).level = 1 ∧
      findOrg [⟨1, "College", 1, none⟩] 1 = some ⟨1, "College", 1, none⟩) ∧
    ∃ e', reviewEvent [⟨1, "College", 1, none⟩] ⟨1, "College", 1, none⟩
        (Event.mk 100 3 1 0 10 .pending
          [⟨2, .pending, ""⟩, ⟨1, .pending, ""⟩] [])
        BStatus.temporary .approved "ok" = some (e', BStatus.confirmed) ∧
      e'.status = EStatus.approved :=
  ⟨⟨rfl, by decide⟩,
    review_approved_level1_confirms [⟨1, "College", 1, none⟩]
      ⟨1, "College", 1, none⟩
      (Event.mk 100 3 1 0 10 .pending
        [⟨2, .pending, ""⟩, ⟨1, .pending, ""⟩] [])
      BStatus.temporary "ok" rfl (by decide)⟩

/-- C3 counterexample: a rejected event (its booking cancelled) is
reviewed again by the level-1 chain holder with decision approved; the
call changes the event's status to approved and the booking to
confirmed, so rejected is not terminal under reviewEvent. -/
theorem review_resurrects_rejected_event :
    (Event.mk 101 3 1 0 10 .rejected [⟨1, .rejected, "no"⟩] []).status =
      EStatus.rejected ∧
    (reviewEvent [⟨1, "College", 1, none⟩] ⟨1, "College", 1, none⟩
        (Event.mk 101 3 1 0 10 .rejected [⟨1, .rejected, "no"⟩] [])
        BStatus.cancelled .approved "ok").map
      (fun p => (p.1.status, p.2)) =
      some (EStatus.approved, BStatus.confirmed) := by decide

/-- C3 (amended): reviewEvent never consults the event's current status,
so rejected and cancelled are not terminal: a level-1 reviewer approving
a rejected or cancelled event sets it to approved and confirms its
booking. -/
theorem review_ignores_terminal_status (orgs : List Organization)
    (reviewer : Organization) (e : Event) (bk : BStatus) (c : String)
    (hterm : e.status = EStatus.rejected ∨ e.status = EStatus.cancelled)
    (hlvl : reviewer.level = 1)
    (horg : findOrg orgs reviewer.id = some reviewer) :
    ∃ e', reviewEvent orgs reviewer e bk .approved c =
        some (e', BStatus.confirmed) ∧ e'.status = EStatus.approved :=
  reviewEvent_approved_level1 orgs reviewer e bk c hlvl horg

/-- Witness for `review_ignores_terminal_status`: a cancelled event is
approved by an overriding level-1 authority not in its chain. -/
theorem review_ignores_terminal_status_witness :
    ((Event.mk 102 3 1 0 10 .cancelled [] []).status = EStatus.rejected ∨
      (Event.mk 102 3 1 0 10 .cancelled [] []).status = EStatus.cancelled) ∧
    ∃ e', reviewEvent [⟨1, "College", 1, none⟩] ⟨1, "College", 1, none⟩
        (Event.mk 102 3 1 0 10 .cancelled [] [])
        BStatus.cancelled .approved "late approval" =
        some (e', BStatus.confirmed) ∧ e'.status = EStatus.approved :=
  ⟨Or.inr rfl,
    review_ignores_terminal_status [⟨1, "College", 1, none⟩]
      ⟨1, "College", 1, none⟩ (Event.mk 102 3 1 0 10 .cancelled [] [])
      BStatus.cancelled "late approval" (Or.inr rfl) rfl (by decide)⟩

/-- Witness for `conflicts_only_active`: a cancelled booking whose
interval exactly matches the request is not reported. -/
theorem conflicts_only_active_witness :
    (Booking.mk 1 7 10 20 BStatus.cancelled ∈
        conflictingBookings [Booking.mk 1 7 10 20 BStatus.cancelled] 1 10 20 →
      (Booking.mk 1 7 10 20 BStatus.cancelled).status = BStatus.temporary ∨
      (Booking.mk 1 7 10 20 BStatus.cancelled).status = BStatus.confirmed) ∧
    ((Booking.mk 1 7 10 20 BStatus.cancelled).status = BStatus.cancelled →
      Booking.mk 1 7 10 20 BStatus.cancelled ∉
        conflictingBookings [Booking.mk 1 7 10 20 BStatus.cancelled] 1 10 20) :=
  conflicts_only_active [Booking.mk 1 7 10 20 BStatus.cancelled] 1 10 20
    (Booking.mk 1 7 10 20 BStatus.cancelled)

/-- C8: an in-chain approval by an organization whose (re-fetched) level
is not 1, while some chain entry up to and including the reviewer's
position is not approved, leaves the event in pending and the booking
unchanged. -/
theorem review_out_of_order_approval_pending (orgs : List Organization)
    (reviewer rOrg : Organization) (e : Event) (bk : BStatus) (c : String)
    (idx : Nat)
    (hidx : e.approvalChain.findIdx? (fun a => a.organization = reviewer.id)
      = some idx)
    (horg : findOrg orgs reviewer.id = some rOrg)
    (hlvl : rOrg.level ≠ 1)
    (hpred : ∃ a ∈ (recordDecision e.approvalChain idx CStatus.approved
        c).take (idx + 1), a.status ≠ CStatus.approved) :
    ∃ e', reviewEvent orgs reviewer e bk .approved c = some (e', bk) ∧
      e'.status = EStatus.pending := by
  have hall : ((recordDecision e.approvalChain idx CStatus.approved c).take
      (idx + 1)).all (fun a => a.status = CStatus.approved) = false := by
    rcases hpred with ⟨a, ha, hne⟩
    rw [Bool.eq_false_iff]
    intro h
    rw [List.all_eq_true] at h
    exact hne (by simpa using h a ha)
  simp only [reviewEvent, hidx, horg, Decision.toC, hall, Bool.false_eq_true,
    if_false, if_neg hlvl]
  exact ⟨_, rfl, rfl⟩

/-- Witness for `review_out_of_order_approval_pending`: the second
reviewer approves while the first entry is still pending. -/
theorem review_out_of_order_approval_pending_witness :
    ((Event.mk 102 3 1 0 10 .needs_modification
        [⟨2, .pending, ""⟩, ⟨5, .pending, ""⟩] []).approvalChain.findIdx?
        (fun a => a.organization = (Organization.mk 5 "B" 2 (some 1)).id) =
      some 1 ∧
     (Organization.mk 5 "B" 2 (some 1)).level ≠ 1) ∧
    ∃ e', reviewEvent [⟨1, "College", 1, none⟩, ⟨5, "B", 2, some 1⟩]
        ⟨5, "B", 2, some 1⟩
        (Event.mk 102 3 1 0 10 .needs_modification
          [⟨2, .pending, ""⟩, ⟨5, .pending, ""⟩] [])
        BStatus.temporary .approved "ok" = some (e', BStatus.temporary) ∧
      e'.status = EStatus.pending :=
  ⟨⟨by decide, by decide⟩,
    review_out_of_order_approval_pending
      [⟨1, "College", 1, none⟩, ⟨5, "B", 2, some 1⟩] ⟨5, "B", 2, some 1⟩
      ⟨5, "B", 2, some 1⟩
      (Event.mk 102 3 1 0 10 .needs_modification
        [⟨2, .pending, ""⟩, ⟨5, .pending, ""⟩] [])
      BStatus.temporary "ok" 1 (by decide) (by decide) (by decide)
      ⟨⟨2, .pending, ""⟩, by decide, by decide⟩⟩

/-- C1 (the code evaluated at the failing input): the level-1 chain
holder requests needs_modification on an event whose deeper (level-2)
entry is approved.  The document the handler persists still carries that
entry as approved — the fire-and-forget reset callbacks run only after
`event.save()` — whereas the cascade reset the source's forEach body
describes (`cascadeReset`) would have set it to pending. -/
theorem review_needs_modification_reset_not_persisted :
    (reviewEvent [⟨1, "College", 1, none⟩, ⟨2, "Dept", 2, some 1⟩]
        ⟨1, "College", 1, none⟩
        (Event.mk 100 3 1 0 10 .pending
          [⟨2, .approved, ""⟩, ⟨1, .pending, ""⟩] [])
        BStatus.temporary .needs_modification "fix").map
      (fun p => (p.1.approvalChain.map ChainEntry.status, p.1.status, p.2)) =
      some ([CStatus.approved, CStatus.needs_modification],
        EStatus.needs_modification, BStatus.temporary) ∧
    (cascadeReset [⟨1, "College", 1, none⟩, ⟨2, "Dept", 2, some 1⟩]
        ⟨1, "College", 1, none⟩ 1
        (recordDecision [⟨2, .approved, ""⟩, ⟨1, .pending, ""⟩] 1
          CStatus.needs_modification "fix")).map ChainEntry.status =
      [CStatus.pending, CStatus.needs_modification] := by decide

/-- C4 counterexample: the invariant holds for an approved event with a
confirmed booking; a venue manager then sets the booking to temporary,
the event status is left approved, and the invariant is broken. -/
theorem booking_update_temporary_breaks_invariant :
    bookingReflects EStatus.approved BStatus.confirmed ∧
    updateBookingStatus true BStatus.temporary EStatus.approved =
      some (BStatus.temporary, EStatus.approved) ∧
    ¬ bookingReflects EStatus.approved BStatus.temporary := by decide

/-- Shared helper: every successful review of an event whose booking is
temporary re-establishes the booking-reflects-event invariant. -/
theorem reviewEvent_preserves_inv (orgs : List Organization)
    (reviewer : Organization) (e : Event) (bk : BStatus) (d : Decision)
    (c : String) (out : Event × BStatus)
    (hout : reviewEvent orgs reviewer e bk d c = some out)
    (hinv : bookingReflects e.status bk)
    (hbk : bk = BStatus.temporary) :
    bookingReflects out.1.status out.2 := by
  subst hbk
  simp only [reviewEvent] at hout
  split at hout
  · split at hout
    · split at hout
      · injection hout with h
        subst h
        exact (by decide : bookingReflects EStatus.rejected BStatus.cancelled)
      · injection hout with h
        subst h
        exact (by decide : bookingReflects EStatus.needs_modification BStatus.temporary)
      · split at hout
        · injection hout with h
          subst h
          exact (by decide : bookingReflects EStatus.approved BStatus.confirmed)
        · injection hout with h
          subst h
          exact hinv
    · exact absurd hout (by simp)
  · split at hout
    · injection hout with h
      subst h
      exact (by decide : bookingReflects EStatus.rejected BStatus.cancelled)
    · injection hout with h
      subst h
      exact (by decide : bookingReflects EStatus.needs_modification BStatus.temporary)
    · split at hout
      · exact absurd hout (by simp)
      · split at hout
        · injection hout with h
          subst h
          exact (by decide : bookingReflects EStatus.approved BStatus.confirmed)
        · split at hout
          · injection hout with h
            subst h
            exact hinv
          · injection hout with h
            subst h
            exact (by decide : bookingReflects EStatus.pending BStatus.temporary)

/-- C4 (amended): the invariant is not preserved by every operation; it
is re-established by venue-manager booking updates to cancelled or
confirmed (the event is synced), preserved by creator cancellation, and
preserved by every successful review of an event whose booking is
temporary — while an update to temporary and a review of an event whose
booking is confirmed can break it. -/
theorem booking_sync_selective_invariant :
    (∀ (mgr : Bool) (es : EStatus) (out : BStatus × EStatus),
      updateBookingStatus mgr BStatus.cancelled es = some out →
        bookingReflects out.2 out.1) ∧
    (∀ (mgr : Bool) (es : EStatus) (out : BStatus × EStatus),
      updateBookingStatus mgr BStatus.confirmed es = some out →
        bookingReflects out.2 out.1) ∧
    (∀ (req : Nat) (e : Event) (out : Event × BStatus),
      cancelEvent req e = some out → bookingReflects out.1.status out.2) ∧
    (∀ (orgs : List Organization) (reviewer : Organization) (e : Event)
      (d : Decision) (c : String) (out : Event × BStatus),
      reviewEvent orgs reviewer e BStatus.temporary d c = some out →
        bookingReflects e.status BStatus.temporary →
        bookingReflects out.1.status out.2) := by
  refine ⟨?_, ?_, ?_, ?_⟩
  · intro mgr es out h
    unfold updateBookingStatus at h
    split at h
    · injection h with h
      subst h
      exact (by decide : bookingReflects EStatus.cancelled BStatus.cancelled)
    · exact absurd h (by simp)
  · intro mgr es out h
    unfold updateBookingStatus at h
    split at h
    · injection h with h
      subst h
      exact (by decide : bookingReflects EStatus.approved BStatus.confirmed)
    · exact absurd h (by simp)
  · intro req e out h
    unfold cancelEvent at h
    split at h
    · injection h with h
      subst h
      exact (by decide : bookingReflects EStatus.cancelled BStatus.cancelled)
    · exact absurd h (by simp)
  · intro orgs reviewer e d c out h hinv
    exact reviewEvent_preserves_inv orgs reviewer e BStatus.temporary d c out
      h hinv rfl

/-- Witness for `booking_sync_selective_invariant` at concrete inputs: a
booking-update to cancelled on an approved event, and a rejection review
of a pending event with a temporary booking. -/
theorem booking_sync_selective_invariant_witness :
    (updateBookingStatus true BStatus.cancelled EStatus.approved =
        some (BStatus.cancelled, EStatus.cancelled) ∧
      bookingReflects EStatus.cancelled BStatus.cancelled) ∧
    (reviewEvent [⟨1, "College", 1, none⟩] ⟨1, "College", 1, none⟩
        (Event.mk 7 3 1 0 10 .pending [⟨1, .pending, ""⟩] [])
        BStatus.temporary .rejected "no" =
        some (Event.mk 7 3 1 0 10 .rejected [⟨1, .rejected, "no"⟩] [],
          BStatus.cancelled) ∧
      bookingReflects
        (Event.mk 7 3 1 0 10 .rejected [⟨1, .rejected, "no"⟩] []).status
        BStatus.cancelled) :=
  ⟨⟨by decide,
      booking_sync_selective_invariant.1 true EStatus.approved
        (BStatus.cancelled, EStatus.cancelled) (by decide)⟩,
    ⟨by decide,
      booking_sync_selective_invariant.2.2.2 [⟨1, "College", 1, none⟩]
        ⟨1, "College", 1, none⟩
        (Event.mk 7 3 1 0 10 .pending [⟨1, .pending, ""⟩] []) .rejected "no"
        (Event.mk 7 3 1 0 10 .rejected [⟨1, .rejected, "no"⟩] [],
          BStatus.cancelled) (by decide) (by decide)⟩⟩

/-- The field patch of PUT /:id never writes the status field. -/
theorem applyPatch_status (e : Event) (r : UpdateReq) :
    (applyPatch e r).status = e.status := by
  unfold applyPatch
  cases r.startDateTime <;> cases r.endDateTime <;> cases r.venue <;> rfl

/-- C5 counterexample: the creator edits a needs_modification event onto
a slot overlapping another event's confirmed booking.  The exclusion
query does report the clash, but updateEvent never runs it: the call
succeeds, commits the new interval, resets status to pending and the
booking to temporary. -/
theorem update_commits_despite_conflict :
    conflictingBookingsEx
        [Booking.mk 1 10 0 10 BStatus.temporary,
         Booking.mk 1 11 5 15 BStatus.confirmed] 1 6 12 (some 10) ≠ [] ∧
    (updateEvent 5 (Event.mk 10 5 1 0 10 .needs_modification [] [])
        (Booking.mk 1 10 0 10 BStatus.temporary)
        (UpdateReq.mk none (some 6) (some 12) none none none none true)).map
      (fun p => (p.1.status, p.1.startT, p.1.endT,
        p.2.status, p.2.startT, p.2.endT)) =
      some (EStatus.pending, 6, 12, BStatus.temporary, 6, 12) := by decide

/-- C5 (amended): a reset-edit by the creator of a needs_modification
event always succeeds and commits the patched venue/interval — status
back to pending, booking retargeted and temporary — with no conflict
re-check anywhere in the handler. -/
theorem update_reset_commits_unconditionally (requester : Nat) (e : Event)
    (bk : Booking) (r : UpdateReq)
    (hcr : e.createdBy = requester)
    (hrs : r.resetStatus = true)
    (hst : e.status = EStatus.needs_modification) :
    ∃ e', updateEvent requester e bk r =
        some (e', Booking.mk (applyPatch e r).venue bk.event
          (applyPatch e r).startT (applyPatch e r).endT BStatus.temporary) ∧
      e'.status = EStatus.pending := by
  have hcond : (r.resetStatus = true) ∧
      (applyPatch e r).status = EStatus.needs_modification :=
    ⟨hrs, by rw [applyPatch_status, hst]⟩
  simp only [updateEvent, if_pos hcr, if_pos hcond]
  exact ⟨_, rfl, rfl⟩

/-- Witness for `update_reset_commits_unconditionally` at the conflicting
concrete input of the counterexample's scenario shape. -/
theorem update_reset_commits_unconditionally_witness :
    ((Event.mk 20 5 1 0 10 .needs_modification [] []).createdBy = 5 ∧
      (UpdateReq.mk none (some 30) (some 40) none none none none
        true).resetStatus = true ∧
      (Event.mk 20 5 1 0 10 .needs_modification [] []).status =
        EStatus.needs_modification) ∧
    ∃ e', updateEvent 5 (Event.mk 20 5 1 0 10 .needs_modification [] [])
        (Booking.mk 1 20 0 10 BStatus.temporary)
        (UpdateReq.mk none (some 30) (some 40) none none none none true) =
        some (e', Booking.mk
          (applyPatch (Event.mk 20 5 1 0 10 .needs_modification [] [])
            (UpdateReq.mk none (some 30) (some 40) none none none none
              true)).venue
          20
          (applyPatch (Event.mk 20 5 1 0 10 .needs_modification [] [])
            (UpdateReq.mk none (some 30) (some 40) none none none none
              true)).startT
          (applyPatch (Event.mk 20 5 1 0 10 .needs_modification [] [])
            (UpdateReq.mk none (some 30) (some 40) none none none none
              true)).endT
          BStatus.temporary) ∧
      e'.status = EStatus.pending :=
  ⟨⟨rfl, rfl, rfl⟩,
    update_reset_commits_unconditionally 5
      (Event.mk 20 5 1 0 10 .needs_modification [] [])
      (Booking.mk 1 20 0 10 BStatus.temporary)
      (UpdateReq.mk none (some 30) (some 40) none none none none true)
      rfl rfl rfl⟩

/-- C10: createEvent rejects with the missing-fields error whenever any
required field is JS-falsy; in particular a request carrying
budget = 0 or expectedParticipants = 0 is rejected even though the field
is present. -/
theorem create_rejects_falsy_fields (orgs : List Organization)
    (creator : Organization) (venues : List Nat) (bookings : List Booking)
    (r : CreateReq) (eid fuel : Nat)
    (h : missingFields r = true ∨ r.budget = some 0 ∨
      r.expectedParticipants = some 0) :
    createEvent orgs creator venues bookings r eid fuel =
      .error CreateErr.missingFields := by
  have hm : missingFields r = true := by
    rcases h with h | h | h
    · exact h
    · simp [missingFields, numFalsy, h]
    · simp [missingFields, numFalsy, h]
  simp [createEvent, hm]

/-- Witness for `create_rejects_falsy_fields`: a request with every
field present but budget = 0 is rejected as missing fields. -/
theorem create_rejects_falsy_fields_witness :
    (missingFields
        ⟨some "Fest", some 5, some 10, some 1, some 0, some "d", some 50⟩ =
        true ∨
      (CreateReq.mk (some "Fest") (some 5) (some 10) (some 1) (some 0)
        (some "d") (some 50)).budget = some 0 ∨
      (CreateReq.mk (some "Fest") (some 5) (some 10) (some 1) (some 0)
        (some "d") (some 50)).expectedParticipants = some 0) ∧
    createEvent [] ⟨3, "Club", 3, some 2⟩ [1] []
      (CreateReq.mk (some "Fest") (some 5) (some 10) (some 1) (some 0)
        (some "d") (some 50)) 100 4 = .error CreateErr.missingFields :=
  ⟨Or.inr (Or.inl rfl),
    create_rejects_falsy_fields [] ⟨3, "Club", 3, some 2⟩ [1] []
      (CreateReq.mk (some "Fest") (some 5) (some 10) (some 1) (some 0)
        (some "d") (some 50)) 100 4 (Or.inr (Or.inl rfl))⟩

end Mern
